import Mathlib

/-!
Formal model of the cylc-flow job submission pipeline
(src/cylc/flow/submit/submit.py, src/cylc/flow/submit/remote.py,
src/cylc/flow/util.py), as a shallow embedding in Lean 4.

Machine state (the bad-hosts set, the selection caches, the memoization
cache) is passed explicitly; Python dicts become association lists with
first-match lookup; fallible operations return explicit outcome types.
External collaborators (the subprocess pool, DNS resolution, the platform
registry, the regex engine's per-call oracle) are parameters of the
embedded functions.
-/

namespace Cylc

/-- Association-list lookup with first-match semantics, modelling Python
dict lookup for the explicit-state caches used throughout. -/
def lookupAssoc {α β : Type} [DecidableEq α] : List (α × β) → α → Option β
  | [], _ => none
  | e :: rest, k => if e.1 = k then some e.2 else lookupAssoc rest k

/-- Platform descriptor (spec section 3): name, configured host list in
order, and install target identifier. -/
structure Platform where
  name : String
  hosts : List String
  installTarget : String
  deriving DecidableEq

namespace Submit

/-- Outcome of attempting one (platform, host) candidate inside the
`_submit` loop body (check_syntax; remote_init; remote_file_install;
submit_job): either the whole body succeeds, or some step raises SSHError
(host unreachable), or some step raises another exception which propagates
out of the loop (e.g. JobSyntaxError). -/
inductive AttemptOutcome
  | ok
  | sshError
  | fatal (e : String)
  deriving DecidableEq

/-- How one call of `_submit` (src/cylc/flow/submit/submit.py lines
225-241) terminates. `platformError p` is `raise PlatformError('no hosts
available for ...')` with the loop variable `platform` bound to `p`;
`unboundLocalError` is the same `raise` statement reached when the for
loop never ran, in which case evaluating the f-string raises
UnboundLocalError because the loop variable `platform` was never bound. -/
inductive SubmitOutcome
  | submitted (p : Platform) (h : String)
  | platformError (p : Platform)
  | unboundLocalError
  | raised (e : String)
  deriving DecidableEq

/-- The candidate loop of `_submit` (src/cylc/flow/submit/submit.py lines
229-241).  `attempt` is the per-candidate pipeline body; `last` tracks the
current binding of the Python loop variable `platform` (none before the
first iteration); the returned list is the bad-hosts set after the call
(`bad_hosts.add(host)` on each SSHError). -/
def submitGo (attempt : Platform → String → AttemptOutcome) :
    List (Platform × String) → Option Platform → List String →
    SubmitOutcome × List String
  | [], none, bad => (.unboundLocalError, bad)
  | [], some p, bad => (.platformError p, bad)
  | (p, h) :: rest, _, bad =>
    match attempt p h with
    | .ok => (.submitted p h, bad)
    | .sshError => submitGo attempt rest (some p) (h :: bad)
    | .fatal e => (.raised e, bad)

/-- `_submit` given the candidate sequence produced by the host selector
(the `for platform, host in select_host` loop with its `else` clause). -/
def _submit (attempt : Platform → String → AttemptOutcome)
    (cands : List (Platform × String)) (bad : List String) :
    SubmitOutcome × List String :=
  submitGo attempt cands none bad

/-- A Python coroutine object as stored in `SelectCache.remote_init_cache`
(src/cylc/flow/submit/submit.py lines 28-43): calling the async function
`_remote_init(platform, host)` creates the object without running it; the
first `await` runs it and records its result; a coroutine object can be
awaited at most once (a second `await` raises RuntimeError in Python). -/
structure Coro where
  result : Bool
  awaited : Bool
  deriving DecidableEq

/-- The per-install-target cache `cache.remote_init_cache`, a dict from
install target to the stored coroutine object. -/
abbrev InitCache : Type := List (String × Coro)

/-- Result of `await`-ing a cache entry: the coroutine's value, or the
RuntimeError Python raises when the coroutine was already awaited (not a
KeyError, so the surrounding suppress(KeyError) does not catch it). -/
inductive AwaitResult
  | ok (b : Bool)
  | runtimeError
  deriving DecidableEq

/-- The cache-gated wrapper `remote_init` (src/cylc/flow/submit/submit.py
lines 38-43) as a sequential state transformer.  `underlying` is the
remote-init command `_remote_init` from submit/remote.py (run when the
stored coroutine is first awaited).  Returns the call's outcome, the cache
afterwards, and how many times the underlying command ran during the
call.  On a cache hit the stored object is awaited again: already awaited
means RuntimeError, with the cache unchanged. -/
def remote_init (underlying : Platform → String → Bool) (cache : InitCache)
    (platform : Platform) (host : String) :
    AwaitResult × InitCache × Nat :=
  match lookupAssoc cache platform.installTarget with
  | some coro =>
    if coro.awaited then (.runtimeError, cache, 0)
    else (.ok coro.result,
      (platform.installTarget, ⟨coro.result, true⟩) :: cache, 0)
  | none =>
    (.ok (underlying platform host),
      (platform.installTarget, ⟨underlying platform host, true⟩) :: cache, 1)

/-- Merged runtime configuration fields consulted by the host selector:
the platform expression rtconfig['platform'] and the legacy host
expression rtconfig['remote']['host'] (empty string when unset, matching
Python falsiness). -/
structure RTConfig where
  platform : String
  host : String
  deriving DecidableEq

/-- Operations `_get_host_host_selector` may perform after its input
validation, in order of appearance in the source. -/
inductive SelEffect
  | cacheLookup
  | evalHost
  | evalPlatform
  deriving DecidableEq

/-- Result of `_get_host_host_selector`: the WorkflowConfigError raised on
mixed Cylc 7 / Cylc 8 configuration, or a host selector for the evaluated
platform string (cached = true when served from
cache.host_selection_batches). -/
inductive SelOutcome
  | workflowConfigError
  | selector (platform_string : String) (cached : Bool)
  deriving DecidableEq

/-- `_get_host_host_selector` (src/cylc/flow/submit/submit.py lines
160-192).  `batches` is cache.host_selection_batches keyed by the
(platform expression, host expression) pair; `eval_host_f` and
`eval_platform_f` are the subshell evaluations of the expressions;
`platform_name_from_job_info2` maps an evaluated host back to a platform
name.  Alongside the outcome it returns the list of operations performed,
so that "fails before any subshell evaluation or cache lookup" is a
statement about the model. -/
def _get_host_host_selector (rtconfig : RTConfig)
    (batches : List ((String × String) × String))
    (eval_host_f : String → String)
    (platform_name_from_job_info2 : String → RTConfig → String)
    (eval_platform_f : String → String) :
    SelOutcome × List SelEffect :=
  if rtconfig.platform ≠ "" ∧ rtconfig.host ≠ "" then
    (.workflowConfigError, [])
  else
    match lookupAssoc batches (rtconfig.platform, rtconfig.host) with
    | some sel => (.selector sel true, [.cacheLookup])
    | none =>
      if rtconfig.host ≠ "" then
        (.selector
          (platform_name_from_job_info2 (eval_host_f rtconfig.host) rtconfig)
          false,
          [.cacheLookup, .evalHost])
      else
        (.selector (eval_platform_f rtconfig.platform) false,
          [.cacheLookup, .evalPlatform])

end Submit

/-- Python str.split on the '.' separator, over character lists
(always returns at least one, possibly empty, segment). -/
def splitDot : List Char → List (List Char)
  | [] => [[]]
  | c :: cs =>
    match splitDot cs with
    | [] => [[]]
    | seg :: rest => if c = '.' then [] :: seg :: rest else (c :: seg) :: rest

/-- `is_remote_host` (src/cylc/flow/hostuserutil.py lines 259-273): false
for the empty name or any name whose first dot-separated component starts
with "localhost"; otherwise compare the resolved name against the local
host name (`get_host_from_name` returns none when resolution raises
IOError, in which case the host is assumed remote). -/
def is_remote_host (get_host_from_name : String → Option String)
    (localhost_name : String) (name : String) : Bool :=
  if name = "" ∨ "localhost".data.isPrefixOf ((splitDot name.data).headD []) then
    false
  else
    match get_host_from_name name with
    | some resolved => decide (resolved ≠ localhost_name)
    | none => true

namespace Submit

/-- `subshell_eval` (src/cylc/flow/submit/submit.py lines 123-157).
`command_pattern` is the compiled subshell regex: it returns the command
captured from a backtick or dollar-parenthesis form, or none when the
string is not a subshell expression; `subprocpool` runs the command and
returns its output; `expandvars` is os.path.expandvars.  The Bool records
whether a subshell command was run during the call. -/
def subshell_eval (eval_str : String)
    (command_pattern : String → Option String)
    (subprocpool : String → String) (expandvars : String → String) :
    String × Bool :=
  if eval_str = "" then ("localhost", false)
  else
    match command_pattern eval_str with
    | some cmd => (expandvars (subprocpool cmd), true)
    | none => (expandvars eval_str, false)

/-- `eval_host` (src/cylc/flow/submit/submit.py lines 96-110): evaluate
the host expression, then collapse any name equivalent to the scheduler's
own host to the literal "localhost". -/
def eval_host (host_str : String)
    (command_pattern : String → Option String)
    (subprocpool : String → String) (expandvars : String → String)
    (get_host_from_name : String → Option String) (localhost_name : String) :
    String × Bool :=
  match subshell_eval host_str command_pattern subprocpool expandvars with
  | (host, ran) =>
    if is_remote_host get_host_from_name localhost_name host then (host, ran)
    else ("localhost", ran)

/-- `eval_platform` (src/cylc/flow/submit/submit.py lines 113-120). -/
def eval_platform (platform_str : String)
    (command_pattern : String → Option String)
    (subprocpool : String → String) (expandvars : String → String) :
    String × Bool :=
  subshell_eval platform_str command_pattern subprocpool expandvars

/-- Modelled from the spec: `get_platform` (cylc.flow.platforms, which is
not under src/) maps a platform or platform-group name to the list of
platform descriptors it denotes, in configured order, via the platform
registry. -/
def get_platform (registry : String → List Platform)
    (platform_string : String) : List Platform :=
  registry platform_string

/-- Modelled from the spec: `get_host` (cylc.flow.platforms, not under
src/) returns the platform's configured hosts in list order as configured,
with every host in the bad-hosts set filtered out. -/
def get_host (platform : Platform) (bad_hosts : List String) : List String :=
  platform.hosts.filter (fun h => decide (h ∉ bad_hosts))

/-- `_host_selector` (src/cylc/flow/submit/submit.py lines 85-93): for
each platform the platform string denotes, yield (platform, host) for each
surviving host, in order. -/
def _host_selector (registry : String → List Platform)
    (platform_string : String) (bad_hosts : List String) :
    List (Platform × String) :=
  (get_platform registry platform_string).flatMap
    (fun platform =>
      (get_host platform bad_hosts).map (fun host => (platform, host)))

end Submit

namespace Remote

/-- The literal sentinel markers of the remote-init stdout protocol. -/
def KS : List Char := "KEYSTART".data

/-- End marker. -/
def KE : List Char := "KEYEND".data

/-- All indices of s at which pat occurs as a contiguous block. -/
def occurrences (pat s : List Char) : List Nat :=
  (List.range (s.length + 1)).filter (fun i => pat.isPrefixOf (s.drop i))

/-- Python re.search("KEYSTART((.|\n|\r)*)KEYEND", s).group(1): the match
starts at the first KEYSTART occurrence that has some KEYEND occurrence at
or after the end of the marker, and the greedy group extends to the last
such KEYEND occurrence; none when no match exists (re.search returns
None). -/
def pySearchKey (s : List Char) : Option (List Char) :=
  match (occurrences KS s).find?
      (fun i => (occurrences KE s).any (fun j => decide (i + KS.length ≤ j))) with
  | none => none
  | some i =>
    some ((s.drop (i + KS.length)).take
      (((occurrences KE s).filter (fun j => decide (i + KS.length ≤ j))).foldl
          max 0
        - (i + KS.length)))

/-- Completed subprocess outcome as consumed by the callbacks: command,
exit code, captured stdout and stderr. -/
structure ProcResult where
  cmd : List String
  ret_code : Int
  out : List Char
  err : List Char
  deriving DecidableEq

/-- The structured PlatformError logged (not raised) on a bad status:
platform name plus full command, exit code, stdout and stderr context. -/
structure PlatformErrorCtx where
  platform_name : String
  cmd : List String
  ret_code : Int
  out : List Char
  err : List Char
  deriving DecidableEq

/-- How `remote_init`'s result-handling completes.  `success key` is
"return True after writing key to the client public key store for the
install target and reconfiguring curve authentication"; `failure ctx` is
"LOG.error(PlatformError(...)) and return False"; `attributeError` is the
exception raised by taking .group(1) of the None that re.search returns
when stdout has KEYSTART but no KEYEND at or after it. -/
inductive RemoteInitResult
  | success (key : List Char)
  | failure (logged : PlatformErrorCtx)
  | attributeError
  deriving DecidableEq

/-- Result handling of `remote_init` (src/cylc/flow/submit/remote.py lines
148-187), from the completed remote-init command onwards: on exit code 0
with "KEYSTART" contained in stdout, extract the regex group between the
markers and succeed; otherwise log the structured PlatformError and return
False. -/
def remote_init (platform : Platform) (proc : ProcResult) : RemoteInitResult :=
  if proc.ret_code = 0 ∧ occurrences KS proc.out ≠ [] then
    match pySearchKey proc.out with
    | some key => .success key
    | none => .attributeError
  else
    .failure ⟨platform.name, proc.cmd, proc.ret_code, proc.out, proc.err⟩

/-- The content appended to the install log by `file_install`: the
formatted command, a stdout section, and a stderr section only when stderr
is non-empty. -/
def installLogContent (cmd_text out err : List Char) : List Char :=
  "$ ".data ++ cmd_text ++
    "\n\n### STDOUT:\n".data ++ out ++
    (if err ≠ [] then "\n\n### STDERR:\n".data ++ err else [])

/-- Result handling of `file_install` (src/cylc/flow/submit/remote.py
lines 197-270) from the completed rsync command onwards: the install log
receives content only when stdout is non-empty (the stderr section nested
under that check), and the return value is exit code equals zero; on
non-zero exit a PlatformError is additionally logged (carrying only the
platform name in this draft).  `format_cmd` renders the command line for
the log header. -/
def file_install (format_cmd : List String → List Char) (proc : ProcResult) :
    Bool × Option (List Char) :=
  (decide (proc.ret_code = 0),
   if proc.out ≠ [] then
     some (installLogContent (format_cmd proc.cmd) proc.out proc.err)
   else none)

end Remote

namespace Util

/-- A Python value as passed through args or kwargs of a memoized
function. -/
inductive PyObj
  | str (s : String)
  | num (n : Nat)
  | pair (a b : PyObj)
  deriving DecidableEq

/-- `_make_key` (src/cylc/flow/util.py lines 22-33): args tuple with the
kwargs items appended as pairs. -/
def _make_key (args : List PyObj) (kwargs : List (String × PyObj)) :
    List PyObj :=
  args ++ kwargs.map (fun item => PyObj.pair (.str item.1) item.2)

/-- The attributes set on the wrapped function by `elru_cache`
(src/cylc/flow/util.py lines 49-51): fcn.cache and fcn.cache_age (the
wrap-time clock value).  These are the only persistent state; the locals
`cache` and `age` inside the wrapper are rebound, not written back. -/
structure ElruState where
  cache : List (List PyObj × PyObj)
  cache_age : Nat
  deriving DecidableEq

/-- One call of the `_inner` wrapper produced by `elru_cache`
(src/cylc/flow/util.py lines 53-73) at clock value `now`: when the cache
has expired the local name `cache` is rebound to a fresh empty dict (and
`age` to a fresh local value), leaving fcn.cache and fcn.cache_age
untouched; an insertion mutates the dict the local name refers to, which
is fcn.cache only in the unexpired case.  Returns the value, the
persistent state afterwards, and whether the underlying function was
invoked. -/
def elru_call (fcn : List PyObj → List (String × PyObj) → PyObj)
    (expires : Nat) (st : ElruState) (now : Nat)
    (args : List PyObj) (kwargs : List (String × PyObj)) :
    PyObj × ElruState × Bool :=
  match lookupAssoc (if now - st.cache_age > expires then [] else st.cache)
      (_make_key args kwargs) with
  | some v => (v, st, false)
  | none =>
    (fcn args kwargs,
     if now - st.cache_age > expires then st
     else { st with
              cache := (_make_key args kwargs, fcn args kwargs) :: st.cache },
     true)

/-- A sequence of wrapper calls, each given as (clock value, args,
kwargs); returns the (value, invoked) observations in order and the final
persistent state. -/
def elru_run (fcn : List PyObj → List (String × PyObj) → PyObj)
    (expires : Nat) :
    ElruState → List (Nat × List PyObj × List (String × PyObj)) →
    List (PyObj × Bool) × ElruState
  | st, [] => ([], st)
  | st, c :: rest =>
    match elru_call fcn expires st c.1 c.2.1 c.2.2 with
    | (v, st2, invoked) =>
      match elru_run fcn expires st2 rest with
      | (results, stF) => ((v, invoked) :: results, stF)

end Util

end Cylc

open Cylc Cylc.Submit Cylc.Remote Cylc.Util

/-- C1: with candidate sequence [(P,A),(P,B),(P,C)] where attempting A and
B raises SSHError and C succeeds, `_submit` completes submitted via C, A
and B are in the bad-hosts set afterwards, and C was not added. -/
theorem submit_failover (attempt : Platform → String → AttemptOutcome)
    (P : Platform) (A B C : String) (bad : List String)
    (hA : attempt P A = .sshError) (hB : attempt P B = .sshError)
    (hC : attempt P C = .ok) :
    (_submit attempt [(P, A), (P, B), (P, C)] bad).1 =
        SubmitOutcome.submitted P C ∧
    A ∈ (_submit attempt [(P, A), (P, B), (P, C)] bad).2 ∧
    B ∈ (_submit attempt [(P, A), (P, B), (P, C)] bad).2 ∧
    (C ∉ bad → C ≠ A → C ≠ B →
      C ∉ (_submit attempt [(P, A), (P, B), (P, C)] bad).2) := by
  have e : _submit attempt [(P, A), (P, B), (P, C)] bad =
      (SubmitOutcome.submitted P C, B :: A :: bad) := by
    simp [_submit, submitGo, hA, hB, hC]
  rw [e]
  refine ⟨rfl, by simp, by simp, ?_⟩
  intro h0 hCA hCB
  simp [hCA, hCB, h0]

/-- C1 witness: concrete run of the failover scenario. -/
theorem submit_failover_witness :
    ((_submit
        (fun _ h => if h = "C" then .ok else .sshError)
        [(⟨"P", ["A", "B", "C"], "it"⟩, "A"),
         (⟨"P", ["A", "B", "C"], "it"⟩, "B"),
         (⟨"P", ["A", "B", "C"], "it"⟩, "C")] []).1 =
      SubmitOutcome.submitted ⟨"P", ["A", "B", "C"], "it"⟩ "C") ∧
    "A" ∈ (_submit
        (fun _ h => if h = "C" then .ok else .sshError)
        [(⟨"P", ["A", "B", "C"], "it"⟩, "A"),
         (⟨"P", ["A", "B", "C"], "it"⟩, "B"),
         (⟨"P", ["A", "B", "C"], "it"⟩, "C")] []).2 := by
  have h := submit_failover
    (fun _ h => if h = "C" then .ok else .sshError)
    ⟨"P", ["A", "B", "C"], "it"⟩ "A" "B" "C" []
    (by decide) (by decide) (by decide)
  exact ⟨h.1, h.2.1⟩

/-- Helper: on a non-empty all-SSHError candidate list, `submitGo` ends in
the PlatformError of the last candidate's platform whatever the current
binding of the loop variable, and the final bad-hosts set is the attempted
hosts (in reverse attempt order) on top of the initial one. -/
theorem submitGo_allFail (cs : List (Platform × String))
    (c : Platform × String) :
    ∀ (acc : Option Platform) (bad : List String),
      submitGo (fun _ _ => AttemptOutcome.sshError) (cs ++ [c]) acc bad =
        (SubmitOutcome.platformError c.1,
          ((cs ++ [c]).map Prod.snd).reverse ++ bad) := by
  induction cs with
  | nil =>
    intro acc bad
    obtain ⟨p, h⟩ := c
    simp [submitGo]
  | cons x xs ih =>
    intro acc bad
    obtain ⟨p, h⟩ := x
    simp only [List.cons_append, submitGo, List.append_eq]
    rw [ih]
    simp

/-- C2: with every candidate failing host-unreachable, `_submit`
terminates and, when the candidate sequence is non-empty, raises
PlatformError('no hosts available for ...') carrying the last candidate's
platform, having marked exactly the attempted hosts bad (the raise itself
adds none); but for the empty candidate sequence the `raise` in the
for-else clause references the never-bound loop variable `platform`, so
the code raises UnboundLocalError instead of the PlatformError the claim
describes. -/
theorem submit_exhaustion :
    _submit (fun _ _ => AttemptOutcome.sshError) [] [] =
      (SubmitOutcome.unboundLocalError, []) ∧
    ∀ (cs : List (Platform × String)) (c : Platform × String)
      (bad : List String),
      _submit (fun _ _ => AttemptOutcome.sshError) (cs ++ [c]) bad =
        (SubmitOutcome.platformError c.1,
          ((cs ++ [c]).map Prod.snd).reverse ++ bad) := by
  exact ⟨rfl, fun cs c bad => submitGo_allFail cs c none bad⟩

/-- C3: the claim says a second remote_init call for the same install
target returns the first call's result from the cache.  The cache stores
the coroutine object itself, so while the second call indeed does not run
the underlying remote-init command again (0 runs), awaiting the cached,
already-awaited coroutine raises RuntimeError instead of returning the
first call's result. -/
theorem remote_init_cached_coroutine :
    Submit.remote_init (fun _ _ => true) [] ⟨"p", ["h1"], "it"⟩ "h1" =
      (AwaitResult.ok true, [("it", ⟨true, true⟩)], 1) ∧
    Submit.remote_init (fun _ _ => true) [("it", ⟨true, true⟩)]
        ⟨"p", ["h1"], "it"⟩ "h1" =
      (AwaitResult.runtimeError, [("it", ⟨true, true⟩)], 0) :=
  ⟨rfl, rfl⟩

/-- C4: a task configured with both a non-empty platform expression and a
non-empty host expression makes _get_host_host_selector raise
WorkflowConfigError immediately, with no cache lookup and no subshell
evaluation performed. -/
theorem host_selector_config_conflict (rtconfig : RTConfig)
    (batches : List ((String × String) × String))
    (eval_host_f : String → String)
    (platform_name_from_job_info2 : String → RTConfig → String)
    (eval_platform_f : String → String)
    (hp : rtconfig.platform ≠ "") (hh : rtconfig.host ≠ "") :
    _get_host_host_selector rtconfig batches eval_host_f
        platform_name_from_job_info2 eval_platform_f =
      (SelOutcome.workflowConfigError, []) := by
  simp [_get_host_host_selector, hp, hh]

/-- C4 witness: a concrete conflicting configuration. -/
theorem host_selector_config_conflict_witness :
    _get_host_host_selector ⟨"powerful_hpc", "cylc7_host"⟩ []
        (fun s => s) (fun s _ => s) (fun s => s) =
      (SelOutcome.workflowConfigError, []) :=
  host_selector_config_conflict ⟨"powerful_hpc", "cylc7_host"⟩ []
    (fun s => s) (fun s _ => s) (fun s => s) (by decide) (by decide)

/-- C5: with exit code 0 and a successful regex search on stdout,
remote_init returns True having written the extracted key to the client
public key store; and on the claim's example stdout the extracted
credential is exactly abc123 (the substring between the KEYSTART and
KEYEND markers). -/
theorem remote_init_key_extraction :
    (∀ (platform : Platform) (proc : ProcResult) (key : List Char),
      proc.ret_code = 0 → pySearchKey proc.out = some key →
      Remote.remote_init platform proc = RemoteInitResult.success key) ∧
    pySearchKey "...KEYSTARTabc123KEYEND...".data = some "abc123".data := by
  constructor
  · intro platform proc key h0 hs
    have hocc : occurrences KS proc.out ≠ [] := by
      rw [pySearchKey] at hs
      cases hfind : (occurrences KS proc.out).find?
          (fun i => (occurrences KE proc.out).any
            (fun j => decide (i + KS.length ≤ j))) with
      | none => rw [hfind] at hs; exact absurd hs (by simp)
      | some i =>
        exact List.ne_nil_of_mem (List.mem_of_find?_eq_some hfind)
    rw [Remote.remote_init, if_pos ⟨h0, hocc⟩, hs]
  · decide

/-- C5 witness: concrete success run of the result handler. -/
theorem remote_init_key_extraction_witness :
    Remote.remote_init ⟨"hpc", ["hostA"], "hpc"⟩
        ⟨["ssh", "hostA"], 0, "xKEYSTARTkKEYENDy".data, []⟩ =
      RemoteInitResult.success "k".data :=
  remote_init_key_extraction.1 ⟨"hpc", ["hostA"], "hpc"⟩
    ⟨["ssh", "hostA"], 0, "xKEYSTARTkKEYENDy".data, []⟩ "k".data rfl (by decide)

/-- C6: the claim says a malformed remote-init output never raises.  With
exit code 0 and stdout containing KEYSTART but no KEYEND, re.search
returns None and taking .group(1) raises AttributeError, so remote_init
raises instead of logging a PlatformError and returning False. -/
theorem remote_init_incomplete_marker_raises :
    Remote.remote_init ⟨"hpc", ["hostA"], "hpc"⟩
        ⟨["ssh", "hostA"], 0, "KEYSTARTabc".data, "".data⟩ =
      RemoteInitResult.attributeError := by decide

/-- C9 counterexample: a transfer with exit code 0, empty stdout and
non-empty stderr returns True and writes nothing at all to the install
log, so the stderr content is not recorded, contrary to the claim that any
stderr produced is written to the install log file. -/
theorem file_install_stderr_unlogged :
    ("rsync stderr text".data ≠ ([] : List Char)) ∧
    file_install (fun _ => []) ⟨["rsync"], 0, [], "rsync stderr text".data⟩ =
      (true, none) := by
  exact ⟨by decide, rfl⟩

/-- C9 amended: file_install returns True exactly when the transfer exit
code is zero, regardless of stderr; the install log is written exactly
when stdout is non-empty, and when both stdout and stderr are non-empty
the written content contains the stderr text (stderr alone is never
treated as failure, but with empty stdout it is not logged either). -/
theorem file_install_exit_code_and_log (format_cmd : List String → List Char)
    (proc : ProcResult) :
    ((file_install format_cmd proc).1 = true ↔ proc.ret_code = 0) ∧
    ((file_install format_cmd proc).2 ≠ none ↔ proc.out ≠ []) ∧
    (proc.out ≠ [] → proc.err ≠ [] →
      ∃ content, (file_install format_cmd proc).2 = some content ∧
        ∃ s t, s ++ proc.err ++ t = content) := by
  refine ⟨by simp [file_install], by simp [file_install], ?_⟩
  intro hout herr
  refine ⟨installLogContent (format_cmd proc.cmd) proc.out proc.err,
    by simp [file_install, hout], ?_⟩
  refine ⟨"$ ".data ++ format_cmd proc.cmd ++
    "\n\n### STDOUT:\n".data ++ proc.out ++ "\n\n### STDERR:\n".data, [], ?_⟩
  simp [installLogContent, herr]

/-- C9 amended witness: stderr recorded in the log when stdout is
non-empty, on a failing transfer. -/
theorem file_install_exit_code_and_log_witness :
    ∃ content,
      (file_install (fun _ => "rsync demo".data)
          ⟨["rsync"], 1, "sent 42 bytes".data, "warn".data⟩).2 = some content ∧
      ∃ s t, s ++ "warn".data ++ t = content :=
  (file_install_exit_code_and_log (fun _ => "rsync demo".data)
    ⟨["rsync"], 1, "sent 42 bytes".data, "warn".data⟩).2.2
    (by decide) (by decide)

/-- Helper: pointwise sublists lift over flatMap, preserving order. -/
theorem sublist_flatMap {α β : Type} (l : List α) (f g : α → List β)
    (h : ∀ a, List.Sublist (f a) (g a)) :
    List.Sublist (l.flatMap f) (l.flatMap g) := by
  induction l with
  | nil => simp
  | cons a l ih => simpa using List.Sublist.append (h a) ih

/-- C7: every candidate the host selector yields has a host outside the
bad-hosts set; the yielded sequence is a subsequence of the sequence the
selector yields with no bad hosts at all (so configured list order is
preserved, not randomized); and for the desktop platform with hosts d1,
d2 and d1 pre-seeded bad, the candidate sequence is exactly d2. -/
theorem host_selector_order_and_filter :
    (∀ (registry : String → List Platform) (platform_string : String)
       (bad_hosts : List String) (p : Platform) (h : String),
       (p, h) ∈ _host_selector registry platform_string bad_hosts →
       h ∉ bad_hosts) ∧
    (∀ (registry : String → List Platform) (platform_string : String)
       (bad_hosts : List String),
       List.Sublist (_host_selector registry platform_string bad_hosts)
         (_host_selector registry platform_string [])) ∧
    _host_selector
        (fun s => if s = "desktop"
          then [⟨"desktop", ["d1", "d2"], "desktop"⟩] else [])
        "desktop" ["d1"] =
      [(⟨"desktop", ["d1", "d2"], "desktop"⟩, "d2")] := by
  refine ⟨?_, ?_, by decide⟩
  · intro registry platform_string bad_hosts p h hmem
    simp only [_host_selector, get_platform, get_host, List.mem_flatMap,
      List.mem_map, List.mem_filter, decide_eq_true_eq] at hmem
    obtain ⟨q, -, host, ⟨-, hnb⟩, heq⟩ := hmem
    cases heq
    exact hnb
  · intro registry platform_string bad_hosts
    apply sublist_flatMap
    intro a
    have h1 : get_host a [] = a.hosts :=
      List.filter_eq_self.mpr (by simp)
    rw [h1]
    exact List.Sublist.map _ (List.filter_sublist a.hosts)

/-- C7 witness: d2 survives the bad-hosts filter in the desktop
scenario. -/
theorem host_selector_order_and_filter_witness :
    "d2" ∉ ["d1"] :=
  host_selector_order_and_filter.1
    (fun s => if s = "desktop"
      then [⟨"desktop", ["d1", "d2"], "desktop"⟩] else [])
    "desktop" ["d1"] ⟨"desktop", ["d1", "d2"], "desktop"⟩ "d2" (by decide)

/-- C8: an empty expression evaluates to localhost in subshell_eval
without running any subshell command, and hence in eval_host and
eval_platform as well. -/
theorem subshell_eval_empty (command_pattern : String → Option String)
    (subprocpool : String → String) (expandvars : String → String)
    (get_host_from_name : String → Option String) (localhost_name : String) :
    subshell_eval "" command_pattern subprocpool expandvars =
      ("localhost", false) ∧
    eval_host "" command_pattern subprocpool expandvars
        get_host_from_name localhost_name = ("localhost", false) ∧
    eval_platform "" command_pattern subprocpool expandvars =
      ("localhost", false) := by
  refine ⟨rfl, ?_, rfl⟩
  rfl

/-- Helper: a wrapper call after expiry looks up the fresh empty dict, so
it always invokes the underlying function and leaves the persistent state
untouched. -/
theorem elru_call_expired (fcn : List PyObj → List (String × PyObj) → PyObj)
    (expires : Nat) (st : ElruState) (now : Nat)
    (args : List PyObj) (kwargs : List (String × PyObj))
    (h : now - st.cache_age > expires) :
    elru_call fcn expires st now args kwargs = (fcn args kwargs, st, true) := by
  simp [elru_call, h, lookupAssoc]

/-- C10: once the clock has advanced beyond cache_age + expires, every
wrapper call re-invokes the underlying function (no memoized value is
returned) and the stored cache and cache_age are left unchanged, so
memoization never resumes over any subsequent sequence of calls. -/
theorem elru_cache_expiry_permanent
    (fcn : List PyObj → List (String × PyObj) → PyObj)
    (expires : Nat) (st : ElruState)
    (calls : List (Nat × List PyObj × List (String × PyObj)))
    (h : ∀ c ∈ calls, c.1 - st.cache_age > expires) :
    elru_run fcn expires st calls =
      (calls.map (fun c => (fcn c.2.1 c.2.2, true)), st) := by
  induction calls with
  | nil => rfl
  | cons c rest ih =>
    have hc := h c (by simp)
    have hr : ∀ x ∈ rest, x.1 - st.cache_age > expires :=
      fun x hx => h x (by simp [hx])
    simp [elru_run, elru_call_expired fcn expires st c.1 c.2.1 c.2.2 hc, ih hr]

/-- C10 witness: a pre-expiry cached value (99 under key num 7) is never
served after expiry and the state is untouched across two calls. -/
theorem elru_cache_expiry_permanent_witness :
    elru_run (fun a _ => PyObj.num a.length) 1
        ⟨[([PyObj.num 7], PyObj.num 99)], 0⟩
        [(5, [PyObj.num 7], []), (6, [PyObj.num 7], [])] =
      ([(PyObj.num 1, true), (PyObj.num 1, true)],
        ⟨[([PyObj.num 7], PyObj.num 99)], 0⟩) := by
  have h := elru_cache_expiry_permanent (fun a _ => PyObj.num a.length) 1
    ⟨[([PyObj.num 7], PyObj.num 99)], 0⟩
    [(5, [PyObj.num 7], []), (6, [PyObj.num 7], [])] (by decide)
  simpa using h
